import Mathlib

/-!
Verification development for the TenderIntel search core.

This file gives a shallow embedding, in Lean 4, of the search components of the
TenderIntel repository (keyword expansion, full-text query construction,
relevance normalization, engine selection and fallback), translated from the
Python sources under `src/tenderintel/search/`, and proves or refutes the
frozen specification claims about them.

Modelling conventions:
* Python strings are modelled as `List Char` (named `Str`) in the query
  pipeline, and as Lean `String` where only equality and lookup matter.
* Python floats are modelled as exact rationals (`ℚ`); `round` is modelled as
  exact round-half-to-even (`pyRound`), `int()` as truncation toward zero
  (`pyTrunc`).
* Exceptions are modelled with `Except`; I/O (the SQLite database, the YAML
  file) is passed in explicitly as data.
* Wall-clock fields (`execution_time_ms`, timestamps) are not modelled.
-/

namespace TenderIntel

/-- Python `round()` on an exact rational: round half to even. -/
def pyRound (q : ℚ) : ℤ :=
  if q - ⌊q⌋ < 1/2 then ⌊q⌋
  else if (1 : ℚ)/2 < q - ⌊q⌋ then ⌊q⌋ + 1
  else if ⌊q⌋ % 2 = 0 then ⌊q⌋ else ⌊q⌋ + 1

/-- Python `round(x, 3)` on an exact rational. -/
def pyRound3 (q : ℚ) : ℚ := (pyRound (q * 1000) : ℚ) / 1000

/-- Python `round(x, 2)` on an exact rational. -/
def pyRound2 (q : ℚ) : ℚ := (pyRound (q * 100) : ℚ) / 100

/-- Python `int()` applied to a rational: truncation toward zero. -/
def pyTrunc (q : ℚ) : ℤ := if 0 ≤ q then ⌊q⌋ else -⌊-q⌋

/-- Python `max` of a list of rationals (`0` for `[]`, which never occurs). -/
def maxQ : List ℚ → ℚ
  | [] => 0
  | x :: xs => xs.foldl max x

/-- Python `min` of a list of rationals (`0` for `[]`, which never occurs). -/
def minQ : List ℚ → ℚ
  | [] => 0
  | x :: xs => xs.foldl min x

/-- Python strings in the query pipeline are lists of characters. -/
abbrev Str := List Char

/-- Accumulating worker for `splitWs` (`cur` holds the current word reversed). -/
def splitWsGo (cur : Str) : Str → List Str
  | [] => if cur = [] then [] else [cur.reverse]
  | c :: rest =>
    if c.isWhitespace then
      if cur = [] then splitWsGo [] rest else cur.reverse :: splitWsGo [] rest
    else splitWsGo (c :: cur) rest

/-- Python `str.split()` with no argument: split on whitespace runs,
dropping empty pieces. -/
def splitWs (s : Str) : List Str := splitWsGo [] s

/-- Python `sep.join(pieces)`. -/
def joinSep (sep : Str) : List Str → Str
  | [] => []
  | [x] => x
  | x :: xs => x ++ sep ++ joinSep sep xs

/-- Python `needle in hay` on strings: contiguous-substring test. -/
def pyIn (needle : Str) : Str → Bool
  | [] => needle.isEmpty
  | c :: rest => needle.isPrefixOf (c :: rest) || pyIn needle rest

/-- Python `str.lower()` (ASCII, which covers all data in this code base). -/
def lowerS (s : Str) : Str := s.map Char.toLower

/-- The double-quote character. -/
def quoteChar : Char := Char.ofNat 34

/-- The backslash character. -/
def backslashChar : Char := Char.ofNat 92

/-- The apostrophe character. -/
def aposChar : Char := Char.ofNat 39

/-- Python `dict.get` on an association list with dict semantics:
the latest binding of a key wins. -/
def pyDictGet {α : Type} (d : List (String × α)) (k : String) : Option α :=
  (d.reverse.find? (fun e => e.1 == k)).map (fun e => e.2)

/-- Python `k in dict`. -/
def pyDictMem {α : Type} (d : List (String × α)) (k : String) : Bool :=
  d.any (fun e => e.1 == k)

/-- First-occurrence deduplication (Python dict key order). -/
def dedupKeepFirst : List String → List String
  | [] => []
  | k :: rest => k :: (dedupKeepFirst rest).filter (fun x => x ≠ k)

/-- Python `list(dict.keys())`: first-occurrence order, one entry per key. -/
def pyDictKeys {α : Type} (d : List (String × α)) : List String :=
  dedupKeepFirst (d.map (fun e => e.1))

/-- Python `dict.items()`: key order with the winning (latest) value. -/
def pyDictItems {α : Type} (d : List (String × α)) : List (String × α) :=
  (pyDictKeys d).filterMap (fun k => (pyDictGet d k).map (fun v => (k, v)))

/-- Python `len(dict)`: number of distinct keys. -/
def pyDictLen {α : Type} (d : List (String × α)) : ℕ := (pyDictKeys d).length

/-!
## `engines/sqlite_engine.py` — query construction and sanitization

`SQLiteFTS5Engine._sanitize_fts5_input` and `SQLiteFTS5Engine._build_fts5_query`.
-/

/-- The FTS5 reserved characters removed by `_sanitize_fts5_input`
(the character class of `re.sub(r'[@#$%^&*+=|\\:;"\'<>,.?/]', ' ', phrase)`). -/
def reservedChars : Str :=
  ['@', '#', '$', '%', '^', '&', '*', '+', '=', '|', backslashChar, ':', ';',
   quoteChar, aposChar, '<', '>', ',', '.', '?', '/']

/-- One step of the `re.sub`: a reserved character becomes a space. -/
def replaceReserved (c : Char) : Char := if c ∈ reservedChars then ' ' else c

/-- `_sanitize_fts5_input`: replace reserved characters by spaces, then
`' '.join(sanitized.split())`.  The final `.strip()` of the source is a no-op
on the join of split words and is not modelled. -/
def sanitize_fts5_input (phrase : Str) : Str :=
  if phrase = [] then []
  else joinSep [' '] (splitWs (phrase.map replaceReserved))

/-- `len(p.split())`: the word count used as the sort key in
`_build_fts5_query`. -/
def wordCount (p : Str) : ℕ := (splitWs p).length

/-- The comparator of `sorted(phrases, key=lambda p: len(p.split()),
reverse=True)`: stable descending order by word count. -/
def byWcDesc (a b : Str) : Bool := decide (wordCount b ≤ wordCount a)

/-- The body of the loop of `_build_fts5_query`: sanitize, drop empties,
double-quote a phrase containing a space. -/
def compilePhrase (phrase : Str) : Option Str :=
  let s := sanitize_fts5_input phrase
  if s = [] then none
  else if ' ' ∈ s then some (quoteChar :: (s ++ [quoteChar]))
  else some s

/-- The `query_parts` list built by `_build_fts5_query`. -/
def build_fts5_query_parts (phrases : List Str) : List Str :=
  (phrases.mergeSort byWcDesc).filterMap compilePhrase

/-- The separator `" OR "`. -/
def orSep : Str := [' ', 'O', 'R', ' ']

/-- `_build_fts5_query`: sort by word count descending, sanitize, quote
multi-word phrases, join with `" OR "`. -/
def build_fts5_query (phrases : List Str) : Str :=
  if phrases = [] then []
  else
    let query_parts := build_fts5_query_parts phrases
    if query_parts = [] then [] else joinSep orSep query_parts

/-!
## `engines/sqlite_engine.py` — result processing and search execution

`SQLiteFTS5Engine._process_results_to_unified` and
`SQLiteFTS5Engine.execute_search`.  A database row is reduced to the fields the
processing step actually computes with (`title` = `row[0]`, `score` =
`bm25(tenders)` = `row[12]`); the remaining columns are copied verbatim into
the hit and are not modelled.
-/

structure Row where
  title : Str
  score : ℚ
deriving DecidableEq

structure UnifiedHit where
  title : Str
  raw_score : ℚ
  similarity_percent : ℤ
  matched_phrases : List Str
  exact_match : Bool
deriving DecidableEq

/-- The page normalizer `max_score = max(bm25_scores) if bm25_scores else 1.0`
of `_process_results_to_unified`, where `bm25_scores = [abs(row[12]) for row
in rows]`. -/
def page_max_score (rows : List Row) : ℚ :=
  let bm25_scores := rows.map (fun r => |r.score|)
  if bm25_scores = [] then 1 else maxQ bm25_scores

/-- The per-hit similarity of `_process_results_to_unified`:
`int((raw_score / max_score) * 100) if max_score > 0 else 0`. -/
def unified_similarity (max_score raw_score : ℚ) : ℤ :=
  if 0 < max_score then pyTrunc (raw_score / max_score * 100) else 0

/-- The hit built by one iteration of the loop of
`_process_results_to_unified`. -/
def unified_hit (rows : List Row) (expanded_phrases : List Str) (keyword : Str)
    (row : Row) : UnifiedHit :=
  let title_lower := lowerS row.title
  let matched := expanded_phrases.filter (fun p => pyIn (lowerS p) title_lower)
  { title := row.title
    raw_score := |row.score|
    similarity_percent := unified_similarity (page_max_score rows) |row.score|
    matched_phrases := if matched = [] then [keyword] else matched
    exact_match := (expanded_phrases.filter (fun p => ' ' ∈ p)).any
      (fun p => pyIn (lowerS p) title_lower) }

/-- `_process_results_to_unified`: per-page normalization
`int((abs(score) / max(abs scores)) * 100)` (or `0` when the maximum is not
positive), plus matched-phrase provenance. -/
def process_results_to_unified (rows : List Row) (expanded_phrases : List Str)
    (keyword : Str) : List UnifiedHit :=
  match rows with
  | [] => []
  | _ :: _ => rows.map (unified_hit rows expanded_phrases keyword)

structure UnifiedResponse where
  query : Str
  expanded_phrases : List Str
  total_matches : ℕ
  max_score : ℚ
  hits : List UnifiedHit
  engine_used : String
deriving DecidableEq

/-- The rows and total count produced by the SQLite backend for a query. -/
structure BackendRows where
  rows : List Row
  total : ℕ

/-- The response built both by the empty-query short circuit and by the
`except` branch of `execute_search` (the two constructions in the source are
textually identical). -/
def zero_response (keyword : Str) (phrases : List Str) : UnifiedResponse :=
  { query := keyword, expanded_phrases := phrases, total_matches := 0,
    max_score := 0, hits := [], engine_used := "sqlite" }

/-- `execute_search`: build the query, short-circuit when it is empty,
otherwise run the backend (modelled as an explicit, fallible oracle `db`) and
process the rows.  The returned `Bool` records whether the backend was
invoked.  A backend exception is caught and converted by the `except` branch. -/
def execute_search (db : Str → Except String BackendRows) (keyword : Str)
    (expanded_phrases : List Str) : UnifiedResponse × Bool :=
  let fts5_query := build_fts5_query expanded_phrases
  if fts5_query = [] then (zero_response keyword expanded_phrases, false)
  else
    match db fts5_query with
    | Except.error _ => (zero_response keyword expanded_phrases, true)
    | Except.ok br =>
      ({ query := keyword
         expanded_phrases := expanded_phrases
         total_matches := br.total
         max_score := if br.rows = [] then 1 else |minQ (br.rows.map (fun r => r.score))|
         hits := process_results_to_unified br.rows expanded_phrases keyword
         engine_used := "sqlite" }, true)

/-!
## `sqlite_fts5_engine.py` — legacy engine normalization

`SQLiteFTS5Engine._process_enhanced_search_results` (the similarity
computation), `_empty_result` and `_error_result`.
-/

/-- The per-score normalization of `_process_enhanced_search_results`:
`100` when all scores are equal (`min_score == max_score`), otherwise
`max(1, round(100 * (max_score - score) / (max_score - min_score)))`. -/
def legacy_similarity (min_score max_score score : ℚ) : ℤ :=
  if min_score = max_score then (100 : ℤ)
  else max 1 (pyRound (100 * (max_score - score) / (max_score - min_score)))

/-- The `similarity_percentages` list of `_process_enhanced_search_results`,
with `min_score = min(bm25_scores)` and `max_score = max(bm25_scores)`
computed once for the page. -/
def similarity_percentages (bm25_scores : List ℚ) : List ℤ :=
  match bm25_scores with
  | [] => []
  | _ :: _ =>
    bm25_scores.map (legacy_similarity (minQ bm25_scores) (maxQ bm25_scores))

/-- The response dictionaries of the legacy engine, restricted to the keys the
two constructors set (`hits` is always `[]` there, so its element type is not
modelled). -/
structure LegacyResponse where
  query : String
  phrases : Option (List String)
  error : Option String
  message : Option String
  total_matches : ℕ
  hits : List Unit
  engine_type : String
deriving DecidableEq

/-- `SQLiteFTS5Engine._empty_result`. -/
def empty_result (keyword : String) (phrases : List String) (reason : String) :
    LegacyResponse :=
  { query := keyword, phrases := some phrases, error := none,
    message := some reason, total_matches := 0, hits := [],
    engine_type := "sqlite_fts5" }

/-- `SQLiteFTS5Engine._error_result`. -/
def error_result (keyword : String) (error_message : String) : LegacyResponse :=
  { query := keyword, phrases := none, error := some error_message,
    message := none, total_matches := 0, hits := [],
    engine_type := "sqlite_fts5" }

/-!
## Specification-side definitions

These definitions transcribe the wording of the specification claims (not the
code); the refinement theorems below compare them with the code-side
definitions above.
-/

/-- The normalization formula as the specification states it: `worst` is the
least-favorable raw score of the page (the largest, since lower raw BM25
scores are better), `best` the most-favorable (the smallest);
`round(100 * (worst - score) / (worst - best))` clamped to a minimum of 1,
and `100` for every hit when `worst == best`. -/
def spec_similarity (page : List ℚ) (score : ℚ) : ℤ :=
  let worst := maxQ page
  let best := minQ page
  if worst = best then (100 : ℤ)
  else max 1 (pyRound (100 * (worst - score) / (worst - best)))

/-- The normalization the unified engine actually performs, stated
independently of the code: `trunc(100 * |score| / max |page|)`, and `0` when
the largest absolute raw score of the page is zero. -/
def spec_unified_similarity (page : List ℚ) (score : ℚ) : ℤ :=
  let m := maxQ (page.map (fun s => |s|))
  if m = 0 then 0 else pyTrunc (100 * |score| / m)

/-- The quoting step applied to the sanitized form of a phrase (the `some`
branch of `compilePhrase`). -/
def wrap_sanitized (p : Str) : Str :=
  let s := sanitize_fts5_input p
  if ' ' ∈ s then quoteChar :: (s ++ [quoteChar]) else s

/-- The compilation pipeline exactly as claim C5 words it: sanitize each
phrase, silently drop phrases that sanitize to empty, sort the surviving
phrases by word count descending, wrap any phrase containing whitespace in
double quotes, join with `" OR "`. -/
def claim_query (phrases : List Str) : Str :=
  let survivors := (phrases.map sanitize_fts5_input).filter (fun s => !(s == []))
  let sorted := survivors.mergeSort byWcDesc
  joinSep orSep (sorted.map
    (fun s => if ' ' ∈ s then quoteChar :: (s ++ [quoteChar]) else s))

/-- Python `str.lstrip()` on characters. -/
def trimLeft : Str → Str
  | [] => []
  | c :: rest => if c.isWhitespace then trimLeft rest else c :: rest

/-- Python `str.strip()`: whitespace removed from both ends. -/
def trimChars (s : Str) : Str := (trimLeft ((trimLeft s.reverse)).reverse)

/-- The normalization `keyword.lower().strip()` of `expand_keyword`
(ASCII lowering, which covers all dictionary keys). -/
def pyNormalize (kw : String) : String :=
  String.mk (trimChars (kw.data.map Char.toLower))

/-!
## `synonym_manager.py` — the comprehensive synonym dictionary

`SynonymManager._initialize_comprehensive_synonyms`,
`_create_domain_mapping` and `_initialize_anti_patterns`, transcribed entry by
entry in source order.  The Python dict literal contains repeated keys
(`api` three times, `backup`, `dhcp`, `cdn`, `sql`, `etl`, `dwh`, `olap`,
`oltp`, `sdk` twice); Python keeps the *last* value for a repeated key, which
`pyDictGet` reproduces.
-/

def synonymsInit : List (String × List String) := [
  ("ai", ["artificial intelligence", "machine learning platform", "ai platform"]),
  ("ml", ["machine learning", "model training platform", "mlops platform"]),
  ("nlp", ["natural language processing", "text analytics", "language processing"]),
  ("cv", ["computer vision", "image recognition", "visual analytics"]),
  ("genai", ["generative ai model hosting", "llm hosting", "ai model hosting"]),
  ("api", ["application programming interface", "rest api", "api gateway", "openapi"]),
  ("rest", ["representational state transfer", "rest api", "restful services"]),
  ("soap", ["simple object access protocol", "web services", "soap api"]),
  ("graphql", ["graph query language", "api query language"]),
  ("webhook", ["web hooks", "callback api", "event notifications"]),
  ("cpu", ["central processing unit", "processor", "compute instance"]),
  ("gpu", ["graphics processing unit", "accelerated computing", "parallel processing"]),
  ("hdd", ["hard disk drive", "spinning disk", "magnetic storage"]),
  ("ssd", ["solid state drive", "flash storage", "nvme storage"]),
  ("ram", ["random access memory", "system memory", "main memory"]),
  ("hpc", ["high performance computing", "supercomputing", "parallel computing"]),
  ("vm", ["virtual machine", "compute instance", "virtual server"]),
  ("bare", ["bare metal server", "dedicated server", "physical server"]),
  ("storage", ["data storage", "storage solution", "storage array"]),
  ("backup", ["backup solution", "data backup", "backup and recovery"]),
  ("archive", ["data archival", "long term storage", "cold storage"]),
  ("san", ["storage area network", "block storage", "shared storage"]),
  ("nas", ["network attached storage", "file storage", "network storage"]),
  ("s3", ["object storage", "blob storage", "cloud storage"]),
  ("snapshot", ["data snapshot", "backup snapshot", "point in time backup"]),
  ("lan", ["local area network", "layer 2 switch", "layer 3 switch", "vlan", "ethernet"]),
  ("wan", ["wide area network", "wan connectivity", "internet connectivity"]),
  ("vpn", ["virtual private network", "site to site vpn", "vpn gateway", "ipsec"]),
  ("dns", ["domain name system", "name resolution", "dns server"]),
  ("dhcp", ["dynamic host configuration protocol", "ip assignment", "network configuration"]),
  ("vlan", ["virtual local area network", "network segmentation", "lan virtualization"]),
  ("mpls", ["multiprotocol label switching", "mpls network", "carrier ethernet"]),
  ("sdwan", ["software defined wan", "sd wan solution", "network virtualization"]),
  ("sdn", ["software defined networking", "network virtualization", "programmable network"]),
  ("noc", ["network operations center", "network management", "network monitoring"]),
  ("nms", ["network management system", "network monitoring", "snmp management"]),
  ("load", ["load balancer", "application load balancer", "traffic distribution"]),
  ("cdn", ["content delivery network", "edge caching", "content distribution"]),
  ("proxy", ["reverse proxy", "forward proxy", "proxy server"]),
  ("cache", ["caching solution", "data cache", "application cache"]),
  ("traffic", ["traffic routing", "traffic management", "load distribution"]),
  ("iam", ["identity and access management", "user management", "access control"]),
  ("pam", ["privileged access management", "privileged identity management"]),
  ("mfa", ["multi factor authentication", "two factor authentication", "strong authentication"]),
  ("sso", ["single sign on", "federated authentication", "identity federation"]),
  ("saml", ["security assertion markup language", "xml based sso", "federated identity"]),
  ("oauth", ["open authorization", "api authorization", "token based auth"]),
  ("ldap", ["lightweight directory access protocol", "directory service", "user directory"]),
  ("ad", ["active directory", "microsoft directory", "windows authentication"]),
  ("siem", ["security information event management", "security analytics", "log correlation"]),
  ("soar", ["security orchestration automation response", "security automation"]),
  ("soc", ["security operations center", "security operations", "cyber defense"]),
  ("ueba", ["user entity behavior analytics", "behavioral analytics", "anomaly detection"]),
  ("dlp", ["data loss prevention", "data leakage prevention", "information protection"]),
  ("casb", ["cloud access security broker", "cloud security", "saas security"]),
  ("firewall", ["network firewall", "packet filtering", "network security"]),
  ("ngfw", ["next generation firewall", "application firewall", "deep packet inspection"]),
  ("waf", ["web application firewall", "application layer firewall", "web protection"]),
  ("ips", ["intrusion prevention system", "network intrusion prevention"]),
  ("ids", ["intrusion detection system", "network intrusion detection"]),
  ("utm", ["unified threat management", "integrated security", "security appliance"]),
  ("antivirus", ["endpoint protection", "malware protection", "virus protection"]),
  ("edr", ["endpoint detection and response", "endpoint security", "host protection"]),
  ("xdr", ["extended detection and response", "extended endpoint security"]),
  ("endpoint", ["endpoint protection platform", "endpoint security", "host security"]),
  ("db", ["database", "database management", "data storage"]),
  ("sql", ["structured query language", "relational database", "sql database"]),
  ("nosql", ["nosql database", "document database", "non relational database"]),
  ("mysql", ["mysql database", "open source database", "relational database"]),
  ("postgresql", ["postgresql database", "postgres database", "object relational database"]),
  ("oracle", ["oracle database", "enterprise database", "commercial database"]),
  ("mongodb", ["mongodb", "document database", "json database"]),
  ("redis", ["redis database", "in memory database", "cache database"]),
  ("cassandra", ["apache cassandra", "wide column database", "distributed database"]),
  ("etl", ["extract transform load", "data pipeline", "data integration"]),
  ("bi", ["business intelligence", "analytics platform", "reporting system"]),
  ("dwh", ["data warehouse", "analytical database", "data mart"]),
  ("olap", ["online analytical processing", "multidimensional analysis", "cube analysis"]),
  ("oltp", ["online transaction processing", "transactional database"]),
  ("big", ["big data", "large scale data", "data analytics"]),
  ("spark", ["apache spark", "distributed computing", "big data processing"]),
  ("hadoop", ["apache hadoop", "distributed storage", "big data framework"]),
  ("itsm", ["it service management", "service management platform"]),
  ("itil", ["information technology infrastructure library", "service management framework"]),
  ("cmdb", ["configuration management database", "it asset management"]),
  ("ticketing", ["helpdesk system", "ticket management", "service desk"]),
  ("monitoring", ["infrastructure monitoring", "system monitoring", "application monitoring"]),
  ("logging", ["log management", "centralized logging", "log analytics"]),
  ("apm", ["application performance monitoring", "application monitoring"]),
  ("dr", ["disaster recovery", "business continuity", "backup recovery"]),
  ("backup", ["data backup", "backup solution", "data protection"]),
  ("replication", ["data replication", "database replication", "storage replication"]),
  ("ha", ["high availability", "fault tolerance", "redundancy"]),
  ("clustering", ["server clustering", "database clustering", "application clustering"]),
  ("voip", ["voice over internet protocol", "ip telephony", "voice communications"]),
  ("pbx", ["private branch exchange", "telephone system", "call management"]),
  ("sip", ["session initiation protocol", "sip trunking", "voip protocol"]),
  ("pri", ["primary rate interface", "isdn service", "digital telephony"]),
  ("sms", ["short message service", "text messaging", "mobile messaging"]),
  ("email", ["electronic mail", "email system", "messaging platform"]),
  ("collaboration", ["team collaboration", "unified communications", "workspace platform"]),
  ("video", ["video conferencing", "video communication", "remote meeting"]),
  ("webex", ["cisco webex", "web conferencing", "online meetings"]),
  ("teams", ["microsoft teams", "collaboration platform", "workspace"]),
  ("zoom", ["video conferencing", "online meetings", "web conferencing"]),
  ("erp", ["enterprise resource planning", "business management system", "integrated business"]),
  ("crm", ["customer relationship management", "sales management", "customer management"]),
  ("hrms", ["human resource management system", "hr software", "personnel management"]),
  ("scm", ["supply chain management", "procurement system", "vendor management"]),
  ("cms", ["content management system", "web content management", "digital content"]),
  ("dms", ["document management system", "document storage", "file management"]),
  ("ecm", ["enterprise content management", "content repository", "document workflow"]),
  ("bpm", ["business process management", "workflow management", "process automation"]),
  ("workflow", ["business workflow", "process automation", "task management"]),
  ("devops", ["development operations", "continuous integration", "software delivery"]),
  ("cicd", ["continuous integration continuous delivery", "automated deployment"]),
  ("git", ["version control", "source control", "code repository"]),
  ("jenkins", ["build automation", "ci cd pipeline", "deployment automation"]),
  ("docker", ["containerization", "application containers", "container platform"]),
  ("kubernetes", ["container orchestration", "k8s platform", "container management"]),
  ("ansible", ["configuration management", "automation platform", "infrastructure as code"]),
  ("terraform", ["infrastructure as code", "cloud provisioning", "resource management"]),
  ("4g", ["fourth generation", "lte network", "mobile broadband"]),
  ("5g", ["fifth generation", "next generation mobile", "ultra fast mobile"]),
  ("lte", ["long term evolution", "4g technology", "mobile broadband"]),
  ("gsm", ["global system for mobile", "cellular network", "mobile communication"]),
  ("cdma", ["code division multiple access", "cellular technology", "wireless communication"]),
  ("sim", ["subscriber identity module", "sim card", "mobile identity"]),
  ("esim", ["embedded sim", "virtual sim", "programmable sim"]),
  ("m2m", ["machine to machine", "iot connectivity", "device communication"]),
  ("iot", ["internet of things", "connected devices", "smart devices"]),
  ("broadband", ["high speed internet", "internet connectivity", "wide bandwidth"]),
  ("wifi", ["wireless fidelity", "wireless network", "wifi connectivity"]),
  ("bluetooth", ["short range wireless", "device pairing", "wireless communication"]),
  ("dc", ["data center", "data centre", "server facility"]),
  ("colocation", ["data center colocation", "hosted infrastructure", "colo services"]),
  ("hosting", ["web hosting", "server hosting", "cloud hosting"]),
  ("virtualization", ["server virtualization", "infrastructure virtualization"]),
  ("hypervisor", ["virtual machine monitor", "virtualization platform"]),
  ("ups", ["uninterruptible power supply", "backup power", "power protection"]),
  ("hvac", ["heating ventilation air conditioning", "cooling system", "climate control"]),
  ("rack", ["server rack", "equipment rack", "data center rack"]),
  ("blade", ["blade server", "modular server", "high density server"]),
  ("blockchain", ["distributed ledger", "cryptocurrency platform", "decentralized database"]),
  ("ar", ["augmented reality", "mixed reality", "immersive technology"]),
  ("vr", ["virtual reality", "immersive simulation", "3d environment"]),
  ("gis", ["geographic information system", "spatial analysis", "mapping system"]),
  ("cad", ["computer aided design", "design software", "engineering software"]),
  ("plm", ["product lifecycle management", "design management", "engineering data"]),
  ("gdpr", ["general data protection regulation", "data privacy", "privacy compliance"]),
  ("hipaa", ["health insurance portability", "healthcare privacy", "medical data protection"]),
  ("sox", ["sarbanes oxley", "financial compliance", "audit compliance"]),
  ("pci", ["payment card industry", "payment security", "card data protection"]),
  ("iso", ["international organization standardization", "quality management", "compliance framework"]),
  ("qa", ["quality assurance", "software testing", "quality control"]),
  ("testing", ["software testing", "test automation", "quality validation"]),
  ("selenium", ["web testing", "browser automation", "ui testing"]),
  ("junit", ["unit testing", "java testing", "automated testing"]),
  ("performance", ["performance testing", "load testing", "stress testing"]),
  ("security", ["security testing", "penetration testing", "vulnerability assessment"]),
  ("sdk", ["software development kit", "development framework", "programming interface"]),
  ("api", ["application programming interface", "programming interface", "software interface"]),
  ("ui", ["user interface", "graphical interface", "user experience"]),
  ("ux", ["user experience", "interface design", "usability"]),
  ("cdn", ["content delivery network", "edge delivery", "content distribution"]),
  ("ssl", ["secure sockets layer", "transport security", "encryption protocol"]),
  ("tls", ["transport layer security", "secure communication", "encryption protocol"]),
  ("tcp", ["transmission control protocol", "reliable transport", "network protocol"]),
  ("udp", ["user datagram protocol", "connectionless protocol", "fast transport"]),
  ("http", ["hypertext transfer protocol", "web protocol", "internet protocol"]),
  ("https", ["secure hypertext transfer protocol", "secure web protocol"]),
  ("ftp", ["file transfer protocol", "file sharing", "data transfer"]),
  ("sftp", ["secure file transfer protocol", "encrypted file transfer"]),
  ("smtp", ["simple mail transfer protocol", "email protocol", "mail server"]),
  ("pop3", ["post office protocol", "email retrieval", "mail download"]),
  ("imap", ["internet message access protocol", "email synchronization"]),
  ("aes", ["advanced encryption standard", "symmetric encryption", "data encryption"]),
  ("rsa", ["rivest shamir adleman", "asymmetric encryption", "public key crypto"]),
  ("pki", ["public key infrastructure", "certificate management", "crypto infrastructure"]),
  ("ca", ["certificate authority", "digital certificates", "trust authority"]),
  ("hsm", ["hardware security module", "cryptographic hardware", "secure crypto"]),
  ("kms", ["key management service", "encryption key management", "crypto key storage"]),
  ("bgp", ["border gateway protocol", "routing protocol", "internet routing"]),
  ("ospf", ["open shortest path first", "interior routing", "link state routing"]),
  ("rip", ["routing information protocol", "distance vector routing"]),
  ("snmp", ["simple network management protocol", "network monitoring", "device management"]),
  ("ntp", ["network time protocol", "time synchronization", "clock sync"]),
  ("dhcp", ["dynamic host configuration protocol", "automatic ip assignment"]),
  ("nat", ["network address translation", "ip address mapping", "address translation"]),
  ("vrf", ["virtual routing forwarding", "route isolation", "network virtualization"]),
  ("acid", ["atomicity consistency isolation durability", "database properties"]),
  ("crud", ["create read update delete", "data operations", "database operations"]),
  ("orm", ["object relational mapping", "database abstraction", "data modeling"]),
  ("sql", ["structured query language", "database query", "relational database"]),
  ("ddl", ["data definition language", "schema definition", "database structure"]),
  ("dml", ["data manipulation language", "data modification", "database operations"]),
  ("ble", ["bluetooth low energy", "low power bluetooth", "energy efficient wireless"]),
  ("nfc", ["near field communication", "short range communication", "contactless communication"]),
  ("rfid", ["radio frequency identification", "wireless identification", "automatic identification"]),
  ("gps", ["global positioning system", "satellite navigation", "location services"]),
  ("lbs", ["location based services", "geo location", "position services"]),
  ("ide", ["integrated development environment", "code editor", "development tools"]),
  ("sdk", ["software development kit", "development framework", "api library"]),
  ("framework", ["software framework", "development platform", "application framework"]),
  ("library", ["code library", "software component", "reusable code"]),
  ("package", ["software package", "code module", "software component"]),
  ("repository", ["code repository", "version control", "source control"]),
  ("etl", ["extract transform load", "data pipeline", "data processing"]),
  ("elt", ["extract load transform", "modern data pipeline", "cloud data processing"]),
  ("olap", ["online analytical processing", "multidimensional analysis", "business intelligence"]),
  ("oltp", ["online transaction processing", "transactional system", "real time processing"]),
  ("dwh", ["data warehouse", "analytical database", "business intelligence database"]),
  ("mart", ["data mart", "departmental database", "focused analytics"]),
  ("lake", ["data lake", "raw data storage", "unstructured data repository"]),
  ("mesh", ["data mesh", "decentralized data", "domain oriented data"]),
  ("esb", ["enterprise service bus", "integration platform", "message routing"]),
  ("api", ["application programming interface", "service interface", "integration point"]),
  ("soa", ["service oriented architecture", "modular architecture", "service design"]),
  ("microservices", ["microservice architecture", "service decomposition", "distributed services"]),
  ("middleware", ["integration middleware", "message oriented middleware", "system integration"]),
  ("sla", ["service level agreement", "performance guarantee", "quality commitment"]),
  ("kpi", ["key performance indicator", "performance metric", "success measure"]),
  ("rpo", ["recovery point objective", "data loss tolerance", "backup frequency"]),
  ("rto", ["recovery time objective", "downtime tolerance", "restoration time"]),
  ("mttr", ["mean time to repair", "recovery time", "incident resolution"]),
  ("mtbf", ["mean time between failures", "reliability measure", "system uptime"])
]

def domainMappingInit : List (String × List String) := [
  ("networking", ["lan", "wan", "vpn", "dns", "dhcp", "vlan", "mpls", "sdwan", "sdn", "noc", "nms", "bgp", "ospf", "snmp", "nat", "vrf", "switch", "router"]),
  ("security", ["iam", "pam", "mfa", "sso", "saml", "oauth", "siem", "soar", "soc", "ueba", "dlp", "casb", "firewall", "ngfw", "waf", "ips", "ids", "utm", "antivirus", "edr", "xdr", "endpoint", "pki", "ca", "hsm", "kms"]),
  ("cloud", ["api", "saas", "paas", "iaas", "vm", "container", "kubernetes", "docker", "serverless", "microservices", "cdn", "load", "auto", "scale"]),
  ("database", ["db", "sql", "nosql", "mysql", "postgresql", "oracle", "mongodb", "redis", "cassandra", "etl", "bi", "dwh", "olap", "oltp", "lake"]),
  ("ai_ml", ["ai", "ml", "nlp", "cv", "genai", "neural", "deep", "learning", "model", "training", "inference", "algorithm"]),
  ("mobile_iot", ["4g", "5g", "lte", "gsm", "cdma", "sim", "esim", "m2m", "iot", "ble", "nfc", "rfid", "gps", "mobile", "wireless"]),
  ("enterprise", ["erp", "crm", "hrms", "scm", "cms", "dms", "ecm", "bpm", "workflow", "itsm", "itil", "cmdb", "ticketing"])
]

def antiPatternsInit : List (String × List String) := [
  ("lan", ["land development", "land acquisition", "landscape", "landmark"]),
  ("api", ["application form", "job application", "permit application"]),
  ("soc", ["social welfare", "social security", "social media", "soccer"]),
  ("ram", ["random", "male sheep", "battering ram"]),
  ("mobile", ["mobile home", "mobile unit", "physical mobility"])
]

/-!
## `synonym_manager.py` — `SynonymManager` operations

The manager's state is the three tables built in `__init__`; `expand_keyword`,
`_detect_domain`, `_calculate_expansion_confidence`, `get_all_keywords` and
`get_statistics` are translated below.  Confidence constants are written as
exact rationals (`0.3 = 3/10`, `0.95 = 95/100`, `0.75 = 75/100`, `0.5 = 1/2`).
-/

structure SynState where
  synonyms : List (String × List String)
  domain_mapping : List (String × List String)
  anti_patterns : List (String × List String)
deriving DecidableEq

/-- The state built by `SynonymManager.__init__`. -/
def synManagerInit : SynState :=
  { synonyms := synonymsInit
    domain_mapping := domainMappingInit
    anti_patterns := antiPatternsInit }

structure ExpansionResult where
  original_keyword : String
  normalized_keyword : String
  expanded_phrases : List String
  domain : String
  confidence : ℚ
  anti_patterns : List String
  expansion_count : ℕ
deriving DecidableEq

/-- `SynonymManager._detect_domain`: the first domain group containing the
keyword, else `"general"`. -/
def detect_domain (s : SynState) (keyword : String) : String :=
  match s.domain_mapping.find? (fun e => e.2.contains keyword) with
  | some e => e.1
  | none => "general"

/-- `SynonymManager._calculate_expansion_confidence`: `0.3` for unknown
keywords, else `0.95` for 3 or more expansions, `0.75` for 2, `0.5`
otherwise. -/
def calculate_expansion_confidence (s : SynState) (keyword : String)
    (expansions : List String) : ℚ :=
  if pyDictMem s.synonyms keyword = false then 3/10
  else if 3 ≤ expansions.length then 95/100
  else if 2 ≤ expansions.length then 75/100
  else 1/2

/-- `SynonymManager.expand_keyword`. -/
def expand_keyword (s : SynState) (keyword : String) (max_expansions : ℕ) :
    ExpansionResult :=
  let normalized_keyword := pyNormalize keyword
  let base_expansions :=
    (pyDictGet s.synonyms normalized_keyword).getD [normalized_keyword]
  let limited_expansions := base_expansions.take max_expansions
  { original_keyword := keyword
    normalized_keyword := normalized_keyword
    expanded_phrases := limited_expansions
    domain := detect_domain s normalized_keyword
    confidence := calculate_expansion_confidence s normalized_keyword limited_expansions
    anti_patterns := (pyDictGet s.anti_patterns normalized_keyword).getD []
    expansion_count := limited_expansions.length }

/-- `expand_keyword` as a state transformer: the method only reads the
manager's tables and assigns no attribute, so the post-state equals the
pre-state. -/
def expand_keyword_call (s : SynState) (keyword : String) (max_expansions : ℕ) :
    ExpansionResult × SynState :=
  (expand_keyword s keyword max_expansions, s)

/-- A sequence of `expand_keyword` calls threaded through the state. -/
def run_expansions (s : SynState) (calls : List (String × ℕ)) : SynState :=
  calls.foldl (fun st c => (expand_keyword_call st c.1 c.2).2) s

/-- `SynonymManager.get_all_keywords`: `sorted(list(self.synonyms.keys()))`. -/
def get_all_keywords (s : SynState) : List String :=
  (pyDictKeys s.synonyms).mergeSort (fun a b => decide (a ≤ b))

structure SynStatistics where
  total_keywords : ℕ
  total_expansions : ℕ
  average_expansions_per_keyword : ℚ
  domain_distribution : List (String × ℕ)
  domains_supported : ℕ
  anti_patterns_configured : ℕ
deriving DecidableEq

/-- `SynonymManager.get_statistics`. -/
def get_statistics (s : SynState) : SynStatistics :=
  let total_keywords := pyDictLen s.synonyms
  let total_expansions : ℕ := ((pyDictItems s.synonyms).map (fun e => e.2.length)).sum
  let avg_expansions : ℚ :=
    if 0 < total_keywords then (total_expansions : ℚ) / (total_keywords : ℚ) else 0
  { total_keywords := total_keywords
    total_expansions := total_expansions
    average_expansions_per_keyword := pyRound2 avg_expansions
    domain_distribution := (pyDictItems s.domain_mapping).map (fun e => (e.1, e.2.length))
    domains_supported := pyDictLen s.domain_mapping
    anti_patterns_configured := pyDictLen s.anti_patterns }

/-!
## `synonym_manager_yaml.py` — `SynonymManagerV2`

The YAML file is passed in as data: `none` models a missing or unparseable
file (every failure of `_load_from_yaml` is caught internally and routed to
`_load_fallback_synonyms`), `some cfg` a parsed file.  Wall-clock fields
(`last_reload_time`) and the free-form `config` metadata are not modelled.
-/

/-- One keyword entry of the synonyms YAML file: the `expansions` list, the
optional `weight` (`data.get('weight', 1.0)`; `none` also covers the
bare-list form of an entry, which likewise gets weight 1.0), and the optional
`anti_patterns` list. -/
structure YamlEntry where
  expansions : List String
  weight : Option ℚ
  anti_patterns : List String
deriving DecidableEq

/-- A parsed synonyms YAML file: the `domains` list and the per-domain
keyword tables (`config[domain]`, present only for some domains). -/
structure YamlConfig where
  domains : List String
  domainData : List (String × List (String × YamlEntry))
deriving DecidableEq

/-- The loader's keyword normalization:
`keyword.lower().replace('_', ' ')`. -/
def normalizeYamlKey (k : String) : String :=
  String.mk ((k.data.map Char.toLower).map (fun c => if c = '_' then ' ' else c))

/-- The `(keyword, data)` pairs traversed by the loading loop of
`_load_from_yaml`, in iteration order: for each declared domain present in
the file, its keyword table. -/
def yamlPairs (cfg : YamlConfig) : List (String × YamlEntry) :=
  cfg.domains.foldr (fun d acc => ((pyDictGet cfg.domainData d).getD []) ++ acc) []

structure SynStateV2 where
  synonyms : List (String × List String)
  weights : List (String × ℚ)
  anti_patterns : List (String × List String)
  domain_mapping : List (String × List String)
  domains : List String
  total_keywords : ℕ
deriving DecidableEq

/-- `SynonymManagerV2._load_fallback_synonyms`: the minimal built-in
dictionary. -/
def fallbackStateV2 : SynStateV2 :=
  { synonyms := [
      ("api", ["application programming interface", "rest api", "api gateway"]),
      ("lan", ["local area network", "layer 2 switch", "vlan", "ethernet"]),
      ("cloud", ["cloud services", "cloud computing", "cloud platform"]),
      ("security", ["cyber security", "information security", "security solution"])]
    weights := [("api", 1), ("lan", 1), ("cloud", 1), ("security", 1)]
    anti_patterns := [
      ("lan", ["land development", "landscape"]),
      ("api", ["application form"])]
    domain_mapping := [
      ("networking", ["lan"]),
      ("cloud", ["api", "cloud"]),
      ("security", ["security"])]
    domains := ["networking", "cloud", "security"]
    total_keywords := 4 }

/-- The success path of `_load_from_yaml`: the loading loop assigns
`synonyms[norm]`, `weights[norm]` (declared weight or 1.0) and, when the
entry has anti-patterns, `anti_patterns[norm]`, in lockstep over the
traversal; `domain_mapping[domain]` collects the normalized keywords of each
domain present in the file; `total_keywords = len(self.synonyms)` counts
distinct keys. -/
def loadedStateV2 (cfg : YamlConfig) : SynStateV2 :=
  let pairs := yamlPairs cfg
  { synonyms := pairs.map (fun e => (normalizeYamlKey e.1, e.2.expansions))
    weights := pairs.map (fun e => (normalizeYamlKey e.1, e.2.weight.getD 1))
    anti_patterns := (pairs.filter (fun e => !(e.2.anti_patterns == []))).map
      (fun e => (normalizeYamlKey e.1, e.2.anti_patterns))
    domain_mapping := cfg.domains.filterMap (fun d =>
      (pyDictGet cfg.domainData d).map (fun entries =>
        (d, dedupKeepFirst (entries.map (fun e => normalizeYamlKey e.1)))))
    domains := cfg.domains
    total_keywords :=
      pyDictLen (pairs.map (fun e => (normalizeYamlKey e.1, e.2.expansions))) }

/-- `SynonymManagerV2._load_from_yaml`: a missing or unparseable file falls
back to the minimal built-in dictionary, otherwise the file is processed. -/
def load_from_yaml (src : Option YamlConfig) : SynStateV2 :=
  match src with
  | none => fallbackStateV2
  | some cfg => loadedStateV2 cfg

structure ReloadResult where
  success : Bool
  previous_keywords : ℕ
  current_keywords : ℕ
  keywords_added : ℤ
  previous_domains : ℕ
  current_domains : ℕ
deriving DecidableEq

/-- `SynonymManagerV2.reload_synonyms`: reload from the (possibly missing)
source and report before/after keyword and domain counts.
`_load_from_yaml` catches its own errors and falls back internally, so the
`except` branch of `reload_synonyms` is unreachable and the report always has
`success = True`. -/
def reload_synonyms (s : SynStateV2) (src : Option YamlConfig) :
    ReloadResult × SynStateV2 :=
  let old_count := s.total_keywords
  let old_domains := s.domains.length
  let s2 := load_from_yaml src
  ({ success := true
     previous_keywords := old_count
     current_keywords := s2.total_keywords
     keywords_added := (s2.total_keywords : ℤ) - (old_count : ℤ)
     previous_domains := old_domains
     current_domains := s2.domains.length }, s2)

/-- `SynonymManagerV2._calculate_expansion_confidence`: tiered base
confidence (`0.3` for unknown keywords; `count ≥ 4 → 0.95`, `≥ 3 → 0.90`,
`≥ 2 → 0.75`, else `0.5`) multiplied by the relevance weight and rounded to
three decimals. -/
def calculate_expansion_confidence_v2 (s : SynStateV2) (keyword : String)
    (expansions : List String) (weight : ℚ) : ℚ :=
  let base_confidence : ℚ :=
    if pyDictMem s.synonyms keyword then
      if 4 ≤ expansions.length then 95/100
      else if 3 ≤ expansions.length then 90/100
      else if 2 ≤ expansions.length then 75/100
      else 1/2
    else 3/10
  pyRound3 (base_confidence * weight)

structure ExpansionResultV2 where
  original_keyword : String
  normalized_keyword : String
  expanded_phrases : List String
  domain : String
  confidence : ℚ
  weight : ℚ
  anti_patterns : List String
  expansion_count : ℕ
  source : String
deriving DecidableEq

/-- `SynonymManagerV2._detect_domain` (same logic as the V1 manager). -/
def detect_domain_v2 (s : SynStateV2) (keyword : String) : String :=
  match s.domain_mapping.find? (fun e => e.2.contains keyword) with
  | some e => e.1
  | none => "general"

/-- `SynonymManagerV2.expand_keyword`. -/
def expand_keyword_v2 (s : SynStateV2) (keyword : String)
    (max_expansions : ℕ) : ExpansionResultV2 :=
  let normalized_keyword := pyNormalize keyword
  let base_expansions :=
    (pyDictGet s.synonyms normalized_keyword).getD [normalized_keyword]
  let limited_expansions := base_expansions.take max_expansions
  let weight := (pyDictGet s.weights normalized_keyword).getD (1/2)
  { original_keyword := keyword
    normalized_keyword := normalized_keyword
    expanded_phrases := limited_expansions
    domain := detect_domain_v2 s normalized_keyword
    confidence := calculate_expansion_confidence_v2 s normalized_keyword
      limited_expansions weight
    weight := weight
    anti_patterns := (pyDictGet s.anti_patterns normalized_keyword).getD []
    expansion_count := limited_expansions.length
    source := if pyDictMem s.synonyms normalized_keyword then "yaml_config"
      else "fallback" }

/-- The confidence tiers as claim C7 words them: `count ≥ 4 → 0.95`,
`≥ 3 → 0.90`, `≥ 2 → 0.75`, otherwise `0.5`. -/
def claim_tier (count : ℕ) : ℚ :=
  if 4 ≤ count then 95/100
  else if 3 ≤ count then 90/100
  else if 2 ≤ count then 75/100
  else 1/2

/-!
## `manager.py` — `UnifiedSearchManager` engine selection

`_initialize_engine`, `_try_initialize_opensearch` and `_initialize_sqlite`.
The OpenSearch side (library availability, config flags, client construction
and the health check bounded by the 5-second timeout) is passed in as an
explicit environment; exceptions are modelled with `Except`. -/

inductive EngineKind where
  | sqlite
  | opensearch
deriving DecidableEq

/-- The outcome of `asyncio.wait_for(engine.health_check(), timeout=5.0)`:
a healthy report, an unhealthy report, a raised exception, or the timeout. -/
inductive HealthOutcome where
  | healthy
  | unhealthy
  | raised
  | timedOut
deriving DecidableEq

/-- The environment of the OpenSearch path: `OPENSEARCH_AVAILABLE`, the
`enabled` flag, truthiness of the configured hosts, whether
`OpenSearchEngine(config)` constructs without raising, and the health-check
outcome. -/
structure OpenSearchEnv where
  available : Bool
  enabled : Bool
  hosts_configured : Bool
  constructs : Bool
  health : HealthOutcome
deriving DecidableEq

/-- Python `str.lower()` on `String` (ASCII). -/
def pyLowerStr (s : String) : String := String.mk (s.data.map Char.toLower)

/-- `UnifiedSearchManager._initialize_sqlite`: returns the SQLite engine, or
raises `RuntimeError` exactly when the SQLite engine itself fails to
construct. -/
def initialize_sqlite (sqlite_ok : Bool) : Except String EngineKind :=
  if sqlite_ok then Except.ok EngineKind.sqlite
  else Except.error "Cannot initialize search engine"

/-- `UnifiedSearchManager._try_initialize_opensearch`: the availability,
enabled and hosts checks, then client construction and the bounded health
check; every failure path returns `_initialize_sqlite` (construction
exceptions and timeouts are caught by the `except` clauses). -/
def try_initialize_opensearch (env : OpenSearchEnv) (sqlite_ok : Bool) :
    Except String EngineKind :=
  if env.available = false then initialize_sqlite sqlite_ok
  else if env.enabled = false then initialize_sqlite sqlite_ok
  else if env.hosts_configured = false then initialize_sqlite sqlite_ok
  else if env.constructs = false then initialize_sqlite sqlite_ok
  else match env.health with
    | HealthOutcome.healthy => Except.ok EngineKind.opensearch
    | HealthOutcome.unhealthy => initialize_sqlite sqlite_ok
    | HealthOutcome.raised => initialize_sqlite sqlite_ok
    | HealthOutcome.timedOut => initialize_sqlite sqlite_ok

/-- `UnifiedSearchManager._initialize_engine`: route on the lowercased
requested engine type; an exception escaping the attempt (which can only
originate in `_initialize_sqlite`) is caught and answered with one more
`_initialize_sqlite` call, whose failure escapes the constructor. -/
def initialize_engine (requested : String) (env : OpenSearchEnv)
    (sqlite_ok : Bool) : Except String EngineKind :=
  let requested_engine := pyLowerStr requested
  let attempt :=
    if requested_engine = "opensearch" then try_initialize_opensearch env sqlite_ok
    else initialize_sqlite sqlite_ok
  match attempt with
  | Except.ok e => Except.ok e
  | Except.error _ => initialize_sqlite sqlite_ok

/-!
## Arithmetic and list helper lemmas
-/

theorem foldl_max_init_le (xs : List ℚ) : ∀ a : ℚ, a ≤ xs.foldl max a := by
  induction xs with
  | nil => intro a; simp
  | cons x xs ih => intro a; exact le_trans (le_max_left a x) (ih (max a x))

theorem foldl_max_mem_le (xs : List ℚ) : ∀ (a y : ℚ), y ∈ xs → y ≤ xs.foldl max a := by
  induction xs with
  | nil => intro a y hy; cases hy
  | cons x xs ih =>
    intro a y hy
    rcases List.mem_cons.mp hy with h | h
    · subst h; exact le_trans (le_max_right a y) (foldl_max_init_le xs (max a y))
    · exact ih (max a x) y h

theorem foldl_max_choice (xs : List ℚ) : ∀ a : ℚ, xs.foldl max a = a ∨ xs.foldl max a ∈ xs := by
  induction xs with
  | nil => intro a; left; rfl
  | cons x xs ih =>
    intro a
    rcases ih (max a x) with h | h
    · rcases max_choice a x with hm | hm
      · left; rw [List.foldl_cons, h, hm]
      · right; rw [List.foldl_cons, h, hm]; exact List.mem_cons_self x xs
    · right; exact List.mem_cons_of_mem x h

theorem foldl_min_init_le (xs : List ℚ) : ∀ a : ℚ, xs.foldl min a ≤ a := by
  induction xs with
  | nil => intro a; simp
  | cons x xs ih => intro a; exact le_trans (ih (min a x)) (min_le_left a x)

theorem foldl_min_mem_le (xs : List ℚ) : ∀ (a y : ℚ), y ∈ xs → xs.foldl min a ≤ y := by
  induction xs with
  | nil => intro a y hy; cases hy
  | cons x xs ih =>
    intro a y hy
    rcases List.mem_cons.mp hy with h | h
    · subst h; exact le_trans (foldl_min_init_le xs (min a y)) (min_le_right a y)
    · exact ih (min a x) y h

theorem foldl_min_choice (xs : List ℚ) : ∀ a : ℚ, xs.foldl min a = a ∨ xs.foldl min a ∈ xs := by
  induction xs with
  | nil => intro a; left; rfl
  | cons x xs ih =>
    intro a
    rcases ih (min a x) with h | h
    · rcases min_choice a x with hm | hm
      · left; rw [List.foldl_cons, h, hm]
      · right; rw [List.foldl_cons, h, hm]; exact List.mem_cons_self x xs
    · right; exact List.mem_cons_of_mem x h

theorem maxQ_mem (x : ℚ) (xs : List ℚ) : maxQ (x :: xs) ∈ x :: xs := by
  rcases foldl_max_choice xs x with h | h
  · rw [maxQ, h]; exact List.mem_cons_self x xs
  · rw [maxQ]; exact List.mem_cons_of_mem x h

theorem le_maxQ (x : ℚ) (xs : List ℚ) (y : ℚ) (hy : y ∈ x :: xs) : y ≤ maxQ (x :: xs) := by
  rcases List.mem_cons.mp hy with h | h
  · subst h; exact foldl_max_init_le xs y
  · exact foldl_max_mem_le xs x y h

theorem minQ_mem (x : ℚ) (xs : List ℚ) : minQ (x :: xs) ∈ x :: xs := by
  rcases foldl_min_choice xs x with h | h
  · rw [minQ, h]; exact List.mem_cons_self x xs
  · rw [minQ]; exact List.mem_cons_of_mem x h

theorem minQ_le (x : ℚ) (xs : List ℚ) (y : ℚ) (hy : y ∈ x :: xs) : minQ (x :: xs) ≤ y := by
  rcases List.mem_cons.mp hy with h | h
  · subst h; exact foldl_min_init_le xs y
  · exact foldl_min_mem_le xs x y h

theorem maxQ_const (l : List ℚ) (a : ℚ) (hne : l ≠ []) (h : ∀ y ∈ l, y = a) :
    maxQ l = a := by
  obtain ⟨x, xs, rfl⟩ := List.exists_cons_of_ne_nil hne
  exact h _ (maxQ_mem x xs)

theorem pyRound_hundred : pyRound 100 = 100 := by norm_num [pyRound]

theorem pyTrunc_hundred : pyTrunc 100 = 100 := by norm_num [pyTrunc]

theorem page_max_score_cons (x : Row) (xs : List Row) :
    page_max_score (x :: xs) = maxQ ((x :: xs).map (fun r => |r.score|)) := by
  simp [page_max_score]

theorem page_max_score_nonneg (x : Row) (xs : List Row) :
    0 ≤ page_max_score (x :: xs) := by
  rw [page_max_score_cons, List.map_cons]
  exact le_trans (abs_nonneg _) (le_maxQ _ _ _ (List.mem_cons_self _ _))

/-- The legacy normalization maps the best (smallest) raw score of a page to
exactly 100. -/
theorem legacy_similarity_anchor (scores : List ℚ) :
    legacy_similarity (minQ scores) (maxQ scores) (minQ scores) = 100 := by
  unfold legacy_similarity
  by_cases hc : minQ scores = maxQ scores
  · rw [if_pos hc]
  · rw [if_neg hc]
    have hsub : maxQ scores - minQ scores ≠ 0 :=
      sub_ne_zero.mpr (fun h => hc h.symm)
    rw [mul_div_assoc, div_self hsub, mul_one, pyRound_hundred]
    norm_num

/-- C1: counterexample.  On a page whose only raw BM25 score is 0, the
unified engine (`_process_results_to_unified`) takes its `else 0` branch
(`max_score > 0` fails) and assigns `similarity_percent = 0` to the single
hit, so the non-empty hit list contains no hit with `similarity_percent ==
100`, contradicting the claim for that implementation. -/
theorem C1_counterexample :
    process_results_to_unified [⟨['t'], 0⟩] [] ['k'] ≠ [] ∧
    ¬ ∃ h ∈ process_results_to_unified [⟨['t'], 0⟩] [] ['k'],
        h.similarity_percent = 100 := by
  have hev : process_results_to_unified [⟨['t'], 0⟩] [] ['k']
      = [⟨['t'], 0, 0, [['k']], false⟩] := by
    simp [process_results_to_unified, unified_hit, unified_similarity,
      page_max_score, maxQ, lowerS, pyIn]
  rw [hev]
  refine ⟨by simp, ?_⟩
  rintro ⟨h, hh, hsim⟩
  simp only [List.mem_singleton] at hh
  rw [hh] at hsim
  simp at hsim

/-- C1 (amended): for the legacy engine
(`_process_enhanced_search_results`) the normalization-anchor invariant holds
unconditionally: every non-empty page has a hit with `similarity_percent =
100`, and when all raw scores are equal every hit gets 100.  For the unified
engine (`_process_results_to_unified`) both statements hold provided at least
one raw BM25 score of the page is nonzero; when every score is 0 every hit
gets similarity 0 instead. -/
theorem C1_normalization_anchor :
    (∀ scores : List ℚ, scores ≠ [] → (100 : ℤ) ∈ similarity_percentages scores) ∧
    (∀ scores : List ℚ, scores ≠ [] → (∀ x ∈ scores, ∀ y ∈ scores, x = y) →
      ∀ v ∈ similarity_percentages scores, v = 100) ∧
    (∀ (rows : List Row) (ps : List Str) (kw : Str),
      (∃ r ∈ rows, r.score ≠ 0) →
      ∃ h ∈ process_results_to_unified rows ps kw, h.similarity_percent = 100) ∧
    (∀ (rows : List Row) (ps : List Str) (kw : Str) (s : ℚ), s ≠ 0 →
      rows ≠ [] → (∀ r ∈ rows, r.score = s) →
      ∀ h ∈ process_results_to_unified rows ps kw, h.similarity_percent = 100) := by
  refine ⟨?_, ?_, ?_, ?_⟩
  · intro scores hne
    obtain ⟨x, xs, rfl⟩ := List.exists_cons_of_ne_nil hne
    show (100:ℤ) ∈ (x :: xs).map (legacy_similarity (minQ (x::xs)) (maxQ (x::xs)))
    exact List.mem_map.mpr ⟨minQ (x::xs), minQ_mem x xs, legacy_similarity_anchor _⟩
  · intro scores hne hall v hv
    obtain ⟨x, xs, rfl⟩ := List.exists_cons_of_ne_nil hne
    have hv2 : v ∈ (x :: xs).map (legacy_similarity (minQ (x::xs)) (maxQ (x::xs))) := hv
    obtain ⟨s, _, rfl⟩ := List.mem_map.mp hv2
    have hmm : minQ (x::xs) = maxQ (x::xs) :=
      hall _ (minQ_mem x xs) _ (maxQ_mem x xs)
    unfold legacy_similarity
    rw [if_pos hmm]
  · rintro rows ps kw ⟨r0, hr0, hs0⟩
    obtain ⟨x, xs, rfl⟩ := List.exists_cons_of_ne_nil (List.ne_nil_of_mem hr0)
    have hMeq : page_max_score (x :: xs)
        = maxQ ((x :: xs).map (fun r => |r.score|)) := page_max_score_cons x xs
    have habs : |r0.score| ∈ (x :: xs).map (fun r => |r.score|) :=
      List.mem_map_of_mem _ hr0
    have hpos : 0 < page_max_score (x :: xs) := by
      rw [hMeq]
      refine lt_of_lt_of_le (abs_pos.mpr hs0) ?_
      rw [List.map_cons] at habs ⊢
      exact le_maxQ _ _ _ habs
    have hmem : maxQ ((x :: xs).map (fun r => |r.score|))
        ∈ (x :: xs).map (fun r => |r.score|) := by
      rw [List.map_cons]
      exact maxQ_mem _ _
    obtain ⟨r1, hr1, hr1eq⟩ := List.mem_map.mp hmem
    refine ⟨unified_hit (x :: xs) ps kw r1, ?_, ?_⟩
    · show _ ∈ (x :: xs).map (unified_hit (x :: xs) ps kw)
      exact List.mem_map_of_mem _ hr1
    · show (unified_hit (x :: xs) ps kw r1).similarity_percent = 100
      simp only [unified_hit]
      show unified_similarity (page_max_score (x :: xs)) |r1.score| = 100
      unfold unified_similarity
      rw [if_pos hpos]
      have : |r1.score| = page_max_score (x :: xs) := by rw [hMeq]; exact hr1eq
      rw [this, div_self (ne_of_gt hpos), one_mul, pyTrunc_hundred]
  · intro rows ps kw s hs hne hall h hmem
    obtain ⟨x, xs, rfl⟩ := List.exists_cons_of_ne_nil hne
    have hm2 : h ∈ (x :: xs).map (unified_hit (x :: xs) ps kw) := hmem
    obtain ⟨r, hr, rfl⟩ := List.mem_map.mp hm2
    have hM : page_max_score (x :: xs) = |s| := by
      rw [page_max_score_cons]
      refine maxQ_const _ _ (by simp) ?_
      intro y hy
      obtain ⟨r2, hr2, rfl⟩ := List.mem_map.mp hy
      rw [hall r2 hr2]
    have hpos : (0:ℚ) < |s| := abs_pos.mpr hs
    show (unified_hit (x :: xs) ps kw r).similarity_percent = 100
    simp only [unified_hit]
    show unified_similarity (page_max_score (x :: xs)) |r.score| = 100
    unfold unified_similarity
    rw [hM, hall r hr, if_pos hpos, div_self (ne_of_gt hpos), one_mul,
      pyTrunc_hundred]

/-- C1: witness.  The amended theorem applied at the one-element pages
`[-3]` (legacy) and `[row with score -3]` (unified). -/
theorem C1_witness :
    (100 : ℤ) ∈ similarity_percentages [-3] ∧
    (∃ h ∈ process_results_to_unified [⟨['t'], -3⟩] [] ['k'],
        h.similarity_percent = 100) := by
  constructor
  · exact C1_normalization_anchor.1 [-3] (by simp)
  · exact C1_normalization_anchor.2.2.1 [⟨['t'], -3⟩] [] ['k']
      ⟨⟨['t'], -3⟩, by simp, by norm_num⟩

/-- C2: counterexample.  For the page with raw scores `[-10, -5]` the claimed
formula (`spec_similarity`, with clamping to a minimum of 1) gives
`[100, 1]`, but the unified engine (`_process_results_to_unified`, one of the
two implementations the claim covers) computes `[100, 50]`: its hit with
score `-5` gets 50, not 1. -/
theorem C2_counterexample :
    (process_results_to_unified [⟨['a'], -10⟩, ⟨['b'], -5⟩] [] ['k']).map
        (fun h => h.similarity_percent) = [100, 50] ∧
    [(-10 : ℚ), -5].map (spec_similarity [(-10 : ℚ), -5]) = [100, 1] ∧
    (50 : ℤ) ≠ 1 := by
  refine ⟨?_, ?_, by decide⟩
  · simp only [process_results_to_unified, unified_hit, unified_similarity,
      page_max_score, maxQ, List.map, List.foldl]
    norm_num [pyTrunc, max_def, if_neg, List.cons_ne_nil]
  · simp only [spec_similarity, minQ, maxQ, List.map, List.foldl]
    norm_num [pyRound, min_def, max_def]

/-- C2 (amended): the claimed formula
`round(100 * (worst - score) / (worst - best))` clamped to a minimum of 1
(all hits 100 when `worst == best`) is exactly the legacy engine's
normalization (`_process_enhanced_search_results`), pointwise on every page;
the unified engine (`_process_results_to_unified`) instead computes
`trunc(100 * |score| / max |page|)` (0 when the maximum absolute score is 0),
as stated by `spec_unified_similarity`. -/
theorem C2_similarity_formula :
    (∀ scores : List ℚ,
      similarity_percentages scores = scores.map (spec_similarity scores)) ∧
    (∀ (rows : List Row) (ps : List Str) (kw : Str),
      (process_results_to_unified rows ps kw).map (fun h => h.similarity_percent)
        = rows.map (fun r =>
            spec_unified_similarity (rows.map (fun r => r.score)) r.score)) := by
  constructor
  · intro scores
    match scores with
    | [] => rfl
    | x :: xs =>
      show (x :: xs).map (legacy_similarity (minQ (x::xs)) (maxQ (x::xs)))
          = (x :: xs).map (spec_similarity (x :: xs))
      refine List.map_congr_left ?_
      intro s _
      unfold legacy_similarity spec_similarity
      by_cases hc : minQ (x :: xs) = maxQ (x :: xs)
      · rw [if_pos hc, if_pos hc.symm]
      · rw [if_neg hc, if_neg (fun h => hc h.symm)]
  · intro rows ps kw
    match rows with
    | [] => rfl
    | x :: xs =>
      show ((x :: xs).map (unified_hit (x :: xs) ps kw)).map
          (fun h => h.similarity_percent) = _
      rw [List.map_map]
      refine List.map_congr_left ?_
      intro r _
      simp only [Function.comp, unified_hit, spec_unified_similarity,
        List.map_map]
      have hcomp : List.map ((fun s => |s|) ∘ fun r => r.score) (x :: xs)
          = List.map (fun r => |r.score|) (x :: xs) :=
        List.map_congr_left (fun a _ => rfl)
      rw [hcomp]
      unfold unified_similarity
      have hM : page_max_score (x :: xs)
          = maxQ ((x :: xs).map (fun r => |r.score|)) := page_max_score_cons x xs
      by_cases hz : maxQ ((x :: xs).map (fun r => |r.score|)) = 0
      · rw [hM, hz, if_pos rfl, if_neg (lt_irrefl 0)]
      · have hnn : 0 ≤ page_max_score (x :: xs) := page_max_score_nonneg x xs
        have hpos : 0 < maxQ ((x :: xs).map (fun r => |r.score|)) := by
          rw [hM] at hnn
          exact lt_of_le_of_ne hnn (fun h => hz h.symm)
        rw [hM, if_pos hpos, if_neg hz]
        congr 1
        field_simp
        ring

/-- If every phrase sanitizes to empty, the compiled FTS5 query is the empty
string. -/
theorem build_query_empty_of_sanitize (phrases : List Str)
    (h : ∀ p ∈ phrases, sanitize_fts5_input p = []) :
    build_fts5_query phrases = [] := by
  unfold build_fts5_query
  by_cases hp : phrases = []
  · rw [if_pos hp]
  · rw [if_neg hp]
    have hparts : build_fts5_query_parts phrases = [] := by
      unfold build_fts5_query_parts
      refine List.filterMap_eq_nil_iff.mpr ?_
      intro p hp2
      simp [compilePhrase, h p (List.mem_mergeSort.mp hp2)]
    simp [hparts]

/-- C4: when every expansion phrase sanitizes to empty, the compiled FTS5
query is the empty string and `execute_search` returns the well-formed
zero-match response (`total_matches = 0`, empty hit list) without invoking the
backend (the invocation flag is `false` and the result does not depend on the
backend oracle `db`) and without raising (the embedding is total). -/
theorem C4_empty_query_short_circuit
    (db : Str → Except String BackendRows) (keyword : Str) (phrases : List Str)
    (h : ∀ p ∈ phrases, sanitize_fts5_input p = []) :
    build_fts5_query phrases = [] ∧
    execute_search db keyword phrases = (zero_response keyword phrases, false) ∧
    (execute_search db keyword phrases).1.total_matches = 0 ∧
    (execute_search db keyword phrases).1.hits = [] := by
  have hq := build_query_empty_of_sanitize phrases h
  have hrun : execute_search db keyword phrases
      = (zero_response keyword phrases, false) := by
    simp only [execute_search]
    rw [hq]
    rfl
  exact ⟨hq, hrun, by rw [hrun]; rfl, by rw [hrun]; rfl⟩

/-- C4: witness.  Scenario D of the specification: the single phrase `@#$%`
sanitizes to nothing, and the search short-circuits even over a backend that
would return a row. -/
theorem C4_witness :
    (∀ p ∈ [[('@' : Char), '#', '$', '%']], sanitize_fts5_input p = []) ∧
    build_fts5_query [[('@' : Char), '#', '$', '%']] = [] ∧
    execute_search (fun _ => Except.ok ⟨[⟨['t'], -1⟩], 1⟩) ['@', '#', '$', '%']
        [['@', '#', '$', '%']]
      = (zero_response ['@', '#', '$', '%'] [['@', '#', '$', '%']], false) := by
  have h : ∀ p ∈ [[('@' : Char), '#', '$', '%']], sanitize_fts5_input p = [] := by
    decide
  exact ⟨h, (C4_empty_query_short_circuit (fun _ => Except.ok ⟨[⟨['t'], -1⟩], 1⟩)
      ['@', '#', '$', '%'] _ h).1,
    (C4_empty_query_short_circuit (fun _ => Except.ok ⟨[⟨['t'], -1⟩], 1⟩)
      ['@', '#', '$', '%'] _ h).2.1⟩

unseal List.merge List.mergeSort in
/-- C9: counterexample.  The unified engine's response to a backend failure
is `zero_response`, exactly the same response object the engine returns for a
genuine zero-match search whose query sanitizes to empty: it carries no
explicit failure indicator of any kind (the `UnifiedSearchResponse` shape has
no error field), contradicting the claim for this engine. -/
theorem C9_counterexample :
    (execute_search (fun _ => Except.error "disk error") ['a', 'p', 'i']
        [['a', 'p', 'i']]).1
      = zero_response ['a', 'p', 'i'] [['a', 'p', 'i']] ∧
    (execute_search (fun _ => Except.ok ⟨[], 0⟩) ['a', 'p', 'i']
        [['@', '#']]).1
      = zero_response ['a', 'p', 'i'] [['@', '#']] := by
  constructor
  · rfl
  · rfl

/-- C9 (amended): a backend error during an individual search execution is
caught at the call boundary and converted into the well-formed zero-match
response (`total_matches = 0`, empty hits), so no exception escapes; the
legacy engine's `_error_result` carries an explicit failure indicator (the
`error` field, absent from its genuine `_empty_result`), but the unified
engine's converted response is the plain `zero_response` with no failure
indicator. -/
theorem C9_backend_failure_handling
    (db : Str → Except String BackendRows) (keyword : Str) (phrases : List Str)
    (err : String)
    (hq : build_fts5_query phrases ≠ [])
    (hdb : db (build_fts5_query phrases) = Except.error err) :
    execute_search db keyword phrases = (zero_response keyword phrases, true) ∧
    (execute_search db keyword phrases).1.total_matches = 0 ∧
    (execute_search db keyword phrases).1.hits = [] ∧
    (∀ kw msg, (error_result kw msg).error = some msg) ∧
    (∀ kw ps reason, (empty_result kw ps reason).error = none) := by
  have hrun : execute_search db keyword phrases
      = (zero_response keyword phrases, true) := by
    simp only [execute_search]
    rw [if_neg hq, hdb]
  exact ⟨hrun, by rw [hrun]; rfl, by rw [hrun]; rfl, fun _ _ => rfl,
    fun _ _ _ => rfl⟩

unseal List.merge List.mergeSort in
/-- C9: witness.  The amended theorem applied to a concrete failing backend
with the query compiled from the phrase `api`. -/
theorem C9_witness :
    execute_search (fun _ => Except.error "database is locked") ['a', 'p', 'i']
        [['a', 'p', 'i']]
      = (zero_response ['a', 'p', 'i'] [['a', 'p', 'i']], true) :=
  (C9_backend_failure_handling (fun _ => Except.error "database is locked")
    ['a', 'p', 'i'] [['a', 'p', 'i']] "database is locked"
    (by decide) rfl).1

/-- Characters of a piece produced by `splitWsGo` come from the accumulator or
from the input. -/
theorem mem_splitWsGo :
    ∀ (s cur piece : Str), piece ∈ splitWsGo cur s → ∀ c ∈ piece, c ∈ cur ∨ c ∈ s := by
  intro s
  induction s with
  | nil =>
    intro cur piece hp c hc
    unfold splitWsGo at hp
    by_cases hcur : cur = []
    · rw [if_pos hcur] at hp; cases hp
    · rw [if_neg hcur] at hp
      rcases List.mem_singleton.mp hp with rfl
      exact Or.inl (List.mem_reverse.mp hc)
  | cons c0 rest ih =>
    intro cur piece hp c hc
    unfold splitWsGo at hp
    by_cases hw : c0.isWhitespace
    · rw [if_pos hw] at hp
      by_cases hcur : cur = []
      · rw [if_pos hcur] at hp
        rcases ih [] piece hp c hc with h | h
        · cases h
        · exact Or.inr (List.mem_cons_of_mem c0 h)
      · rw [if_neg hcur] at hp
        rcases List.mem_cons.mp hp with rfl | hp2
        · exact Or.inl (List.mem_reverse.mp hc)
        · rcases ih [] piece hp2 c hc with h | h
          · cases h
          · exact Or.inr (List.mem_cons_of_mem c0 h)
    · rw [if_neg hw] at hp
      rcases ih (c0 :: cur) piece hp c hc with h | h
      · rcases List.mem_cons.mp h with rfl | h2
        · exact Or.inr (List.mem_cons_self _ _)
        · exact Or.inl h2
      · exact Or.inr (List.mem_cons_of_mem c0 h)

/-- Characters of `joinSep` come from the separator or from a piece. -/
theorem mem_joinSep :
    ∀ (sep : Str) (l : List Str) (c : Char), c ∈ joinSep sep l →
      c ∈ sep ∨ ∃ p ∈ l, c ∈ p := by
  intro sep l
  induction l with
  | nil => intro c hc; cases hc
  | cons x xs ih =>
    intro c hc
    match xs, hc with
    | [], hc => exact Or.inr ⟨x, List.mem_cons_self x [], hc⟩
    | y :: ys, hc =>
      have hc2 : c ∈ x ++ sep ++ joinSep sep (y :: ys) := hc
      rcases List.mem_append.mp hc2 with h | h
      · rcases List.mem_append.mp h with h1 | h1
        · exact Or.inr ⟨x, List.mem_cons_self x (y :: ys), h1⟩
        · exact Or.inl h1
      · rcases ih c h with h1 | ⟨p, hp, hcp⟩
        · exact Or.inl h1
        · exact Or.inr ⟨p, List.mem_cons_of_mem x hp, hcp⟩

/-- Sanitization removes every reserved character. -/
theorem sanitize_no_reserved (p : Str) :
    ∀ c ∈ sanitize_fts5_input p, c ∉ reservedChars := by
  intro c hc hres
  unfold sanitize_fts5_input at hc
  by_cases hp : p = []
  · rw [if_pos hp] at hc; cases hc
  · rw [if_neg hp] at hc
    have hsp : (' ' : Char) ∉ reservedChars := by decide
    rcases mem_joinSep [' '] _ c hc with h | ⟨piece, hpiece, hcp⟩
    · rcases List.mem_singleton.mp h with rfl
      exact hsp hres
    · rcases mem_splitWsGo _ [] piece hpiece c hcp with h | h
      · cases h
      · rcases List.mem_map.mp h with ⟨a, _, rfl⟩
        unfold replaceReserved at hres
        by_cases ha : a ∈ reservedChars
        · rw [if_pos ha] at hres; exact hsp hres
        · rw [if_neg ha] at hres; exact ha hres

theorem compilePhrase_eq (p : Str) :
    compilePhrase p = if sanitize_fts5_input p = [] then none
      else some (wrap_sanitized p) := by
  unfold compilePhrase wrap_sanitized
  by_cases h0 : sanitize_fts5_input p = []
  · simp [h0]
  · by_cases h1 : (' ' : Char) ∈ sanitize_fts5_input p <;> simp [h0, h1]

theorem mem_wrap_sanitized (p : Str) (c : Char) (hc : c ∈ wrap_sanitized p) :
    c = quoteChar ∨ c ∈ sanitize_fts5_input p := by
  unfold wrap_sanitized at hc
  by_cases h1 : (' ' : Char) ∈ sanitize_fts5_input p
  · rw [if_pos h1] at hc
    rcases List.mem_cons.mp hc with rfl | h2
    · exact Or.inl rfl
    · rcases List.mem_append.mp h2 with h3 | h3
      · exact Or.inr h3
      · rcases List.mem_singleton.mp h3 with rfl
        exact Or.inl rfl
  · rw [if_neg h1] at hc
    exact Or.inr hc

theorem filterMap_compilePhrase (l : List Str) :
    l.filterMap compilePhrase
      = (l.filter (fun p => !(sanitize_fts5_input p == []))).map wrap_sanitized := by
  induction l with
  | nil => rfl
  | cons x xs ih =>
    rw [List.filterMap_cons, List.filter_cons, compilePhrase_eq]
    by_cases h0 : sanitize_fts5_input x = []
    · simp [h0, ih]
    · simp [h0, ih]

unseal List.merge List.mergeSort in
/-- C5: counterexample.  For the phrases `["a.b.c", "x y"]` the code sorts by
the word count of the ORIGINAL phrases (1 and 2) before sanitizing, producing
`"x y" OR "a b c"`; the claimed pipeline (sanitize first, then sort the
surviving phrases — whose word counts are 3 and 2 — descending) produces
`"a b c" OR "x y"`.  The code output lists a 2-word phrase before a 3-word
phrase, violating the claimed descending order. -/
theorem C5_counterexample :
    sanitize_fts5_input ['a', '.', 'b', '.', 'c'] = ['a', ' ', 'b', ' ', 'c'] ∧
    sanitize_fts5_input ['x', ' ', 'y'] = ['x', ' ', 'y'] ∧
    wordCount ['a', ' ', 'b', ' ', 'c'] = 3 ∧
    wordCount ['x', ' ', 'y'] = 2 ∧
    build_fts5_query [['a', '.', 'b', '.', 'c'], ['x', ' ', 'y']]
      = [quoteChar, 'x', ' ', 'y', quoteChar] ++ orSep
        ++ [quoteChar, 'a', ' ', 'b', ' ', 'c', quoteChar] ∧
    claim_query [['a', '.', 'b', '.', 'c'], ['x', ' ', 'y']]
      = [quoteChar, 'a', ' ', 'b', ' ', 'c', quoteChar] ++ orSep
        ++ [quoteChar, 'x', ' ', 'y', quoteChar] ∧
    build_fts5_query [['a', '.', 'b', '.', 'c'], ['x', ' ', 'y']]
      ≠ claim_query [['a', '.', 'b', '.', 'c'], ['x', ' ', 'y']] := by
  refine ⟨by decide, by decide, by decide, by decide, by decide, by decide, by decide⟩

/-- C5 (amended): the compiled query is the `" OR "`-join of the wrapped
sanitized forms of the surviving phrases, where the surviving phrases are a
permutation of the phrases that do not sanitize to empty, arranged in
nonincreasing order of their ORIGINAL (pre-sanitization) word count — the
code sorts before sanitizing; the claim as stated sorts after.  Dropping is
silent, single tokens stay bare, multi-word phrases are double-quoted, and no
reserved character other than the quoting double quote appears in the
compiled query. -/
theorem C5_query_compilation (phrases : List Str) :
    build_fts5_query_parts phrases
      = ((phrases.mergeSort byWcDesc).filter
          (fun p => !(sanitize_fts5_input p == []))).map wrap_sanitized ∧
    ((phrases.mergeSort byWcDesc).filter
        (fun p => !(sanitize_fts5_input p == []))).Pairwise
      (fun a b => wordCount b ≤ wordCount a) ∧
    List.Perm
      ((phrases.mergeSort byWcDesc).filter (fun p => !(sanitize_fts5_input p == [])))
      (phrases.filter (fun p => !(sanitize_fts5_input p == []))) ∧
    build_fts5_query phrases = joinSep orSep (build_fts5_query_parts phrases) ∧
    (∀ c ∈ build_fts5_query phrases, c ∈ reservedChars → c = quoteChar) := by
  have htrans : ∀ a b c : Str, byWcDesc a b → byWcDesc b c → byWcDesc a c := by
    intro a b c hab hbc
    exact decide_eq_true (le_trans (of_decide_eq_true hbc) (of_decide_eq_true hab))
  have htotal : ∀ a b : Str, byWcDesc a b || byWcDesc b a := by
    intro a b
    rcases le_total (wordCount b) (wordCount a) with h | h
    · exact Bool.or_eq_true_iff.mpr (Or.inl (decide_eq_true h))
    · exact Bool.or_eq_true_iff.mpr (Or.inr (decide_eq_true h))
  have hparts : build_fts5_query_parts phrases
      = ((phrases.mergeSort byWcDesc).filter
          (fun p => !(sanitize_fts5_input p == []))).map wrap_sanitized :=
    filterMap_compilePhrase _
  have hjoin : build_fts5_query phrases
      = joinSep orSep (build_fts5_query_parts phrases) := by
    unfold build_fts5_query
    by_cases hp : phrases = []
    · rw [if_pos hp]
      subst hp
      simp only [build_fts5_query_parts, List.mergeSort_nil, List.filterMap_nil]
      rfl
    · rw [if_neg hp]
      by_cases hq : build_fts5_query_parts phrases = []
      · rw [if_pos hq, hq]
        rfl
      · rw [if_neg hq]
  refine ⟨hparts, ?_, ?_, hjoin, ?_⟩
  · refine List.Pairwise.imp (fun hab => of_decide_eq_true hab) ?_
    exact List.Pairwise.sublist (List.filter_sublist _)
      (List.sorted_mergeSort htrans htotal phrases)
  · exact List.Perm.filter _ (List.mergeSort_perm phrases byWcDesc)
  · intro c hc hres
    rw [hjoin, hparts] at hc
    rcases mem_joinSep orSep _ c hc with h | ⟨part, hpart, hcp⟩
    · exfalso
      have horsep : c = ' ' ∨ c = 'O' ∨ c = 'R' ∨ c = ' ' := by
        simpa [orSep] using h
      rcases horsep with rfl | rfl | rfl | rfl <;> revert hres <;> decide
    · rcases List.mem_map.mp hpart with ⟨p, _, rfl⟩
      rcases mem_wrap_sanitized p c hcp with h1 | h1
      · exact h1
      · exact absurd hres (sanitize_no_reserved p c h1)

/-- A key that is in no binding of an association list has no value. -/
theorem pyDictGet_eq_none {α : Type} (d : List (String × α)) (k : String)
    (h : pyDictMem d k = false) : pyDictGet d k = none := by
  unfold pyDictGet
  have hall : ∀ e ∈ d.reverse, ¬ (e.1 == k) = true := by
    intro e he
    have hmem : e ∈ d := List.mem_reverse.mp he
    intro heq
    unfold pyDictMem at h
    have : d.any (fun e => e.1 == k) = true := List.any_eq_true.mpr ⟨e, hmem, heq⟩
    rw [h] at this
    cases this
  rw [List.find?_eq_none.mpr hall]
  rfl

/-- C6: counterexample.  The token `switch` is not a key of the synonym
dictionary, and `expand_keyword` duly returns the literal token as sole
phrase with confidence 0.3 — but its domain is `"networking"`, not
`"general"`: `_detect_domain` consults the domain groups independently of the
dictionary, and `switch` is a member of the `networking` group. -/
theorem C6_counterexample :
    pyDictMem synonymsInit (pyNormalize "switch") = false ∧
    (expand_keyword synManagerInit "switch" 5).expanded_phrases = ["switch"] ∧
    (expand_keyword synManagerInit "switch" 5).confidence = 3/10 ∧
    (expand_keyword synManagerInit "switch" 5).domain = "networking" ∧
    "networking" ≠ "general" := by
  have hmem : pyDictMem synonymsInit (pyNormalize "switch") = false := by decide
  have hget : pyDictGet synonymsInit (pyNormalize "switch") = none := by decide
  have hdom : detect_domain synManagerInit (pyNormalize "switch") = "networking" := by
    decide
  refine ⟨hmem, by decide, ?_, by decide, by decide⟩
  show calculate_expansion_confidence synManagerInit (pyNormalize "switch")
      (((pyDictGet synonymsInit (pyNormalize "switch")).getD
        [pyNormalize "switch"]).take 5) = 3/10
  unfold calculate_expansion_confidence
  have hmem2 : pyDictMem synManagerInit.synonyms (pyNormalize "switch") = false := hmem
  rw [if_pos hmem2]

/-- C6 (amended): for every token whose normalized form is not a key of the
synonym dictionary (and any `max_expansions ≥ 1`), `expand_keyword` returns
exactly the literal normalized token as the sole expansion phrase and
confidence 0.3 (< 0.5); the domain is the result of the dictionary-independent
`_detect_domain`, which is `"general"` exactly when the token belongs to no
domain group — some group members (for example `switch`) are not dictionary
keys, so an unknown token can carry a non-`"general"` domain. -/
theorem C6_unknown_token_expansion (s : SynState) (kw : String) (n : ℕ)
    (hmem : pyDictMem s.synonyms (pyNormalize kw) = false) (hn : 1 ≤ n) :
    (expand_keyword s kw n).expanded_phrases = [pyNormalize kw] ∧
    (expand_keyword s kw n).confidence = 3/10 ∧
    (expand_keyword s kw n).confidence < 1/2 ∧
    (expand_keyword s kw n).domain = detect_domain s (pyNormalize kw) ∧
    ((∀ e ∈ s.domain_mapping, (pyNormalize kw) ∉ e.2) →
      (expand_keyword s kw n).domain = "general") := by
  have hget : pyDictGet s.synonyms (pyNormalize kw) = none :=
    pyDictGet_eq_none _ _ hmem
  have hphrases : (expand_keyword s kw n).expanded_phrases = [pyNormalize kw] := by
    show (((pyDictGet s.synonyms (pyNormalize kw)).getD [pyNormalize kw]).take n)
        = [pyNormalize kw]
    rw [hget]
    match n, hn with
    | Nat.succ m, _ => simp
  have hconf : (expand_keyword s kw n).confidence = 3/10 := by
    show calculate_expansion_confidence s (pyNormalize kw) _ = 3/10
    unfold calculate_expansion_confidence
    rw [if_pos hmem]
  refine ⟨hphrases, hconf, by rw [hconf]; norm_num, rfl, ?_⟩
  intro hnone
  show detect_domain s (pyNormalize kw) = "general"
  unfold detect_domain
  have : s.domain_mapping.find? (fun e => e.2.contains (pyNormalize kw)) = none := by
    refine List.find?_eq_none.mpr ?_
    intro e he hcont
    exact hnone e he (List.mem_of_elem_eq_true hcont)
  rw [this]

/-- C6: witness.  The amended theorem applied at the token `zzz`, which is
neither a dictionary key nor a domain-group member. -/
theorem C6_witness :
    pyDictMem synonymsInit (pyNormalize "zzz") = false ∧
    (expand_keyword synManagerInit "zzz" 5).expanded_phrases = ["zzz"] ∧
    (expand_keyword synManagerInit "zzz" 5).confidence < 1/2 ∧
    (expand_keyword synManagerInit "zzz" 5).domain = "general" := by
  have hmem : pyDictMem synonymsInit (pyNormalize "zzz") = false := by decide
  have h := C6_unknown_token_expansion synManagerInit "zzz" 5 hmem (by norm_num)
  refine ⟨hmem, ?_, h.2.2.1, h.2.2.2.2 (by decide)⟩
  rw [h.1]
  decide

/-- C10: `expand_keyword` is deterministic and read-only.  As a state
transformer the call leaves the manager state unchanged, two successive calls
with the same arguments return equal results, and after any sequence of
`expand_keyword` calls the outputs of `get_statistics` and
`get_all_keywords` are identical to their values before. -/
theorem C10_expand_keyword_pure :
    (∀ (s : SynState) (kw : String) (n : ℕ),
      (expand_keyword_call s kw n).2 = s) ∧
    (∀ (s : SynState) (kw : String) (n : ℕ),
      (expand_keyword_call s kw n).1
        = (expand_keyword_call (expand_keyword_call s kw n).2 kw n).1) ∧
    (∀ (s : SynState) (calls : List (String × ℕ)),
      run_expansions s calls = s ∧
      get_statistics (run_expansions s calls) = get_statistics s ∧
      get_all_keywords (run_expansions s calls) = get_all_keywords s) := by
  refine ⟨fun s kw n => rfl, fun s kw n => rfl, ?_⟩
  intro s calls
  have h : run_expansions s calls = s := by
    induction calls generalizing s with
    | nil => rfl
    | cons c cs ih => exact ih s
  exact ⟨h, by rw [h], by rw [h]⟩

/-- C7: counterexample.  The claim's tier table (count 3 gives base 0.90,
times weight) does not describe the original `SynonymManager` (one of the two
cited implementations): for the dictionary keyword `ai`, which has exactly 3
expansions, that manager returns confidence 0.95 (its tiers are `≥ 3 → 0.95`,
`≥ 2 → 0.75`, else `0.5`, with no weight factor), not `0.90 × 1.0`. -/
theorem C7_counterexample :
    pyDictMem synonymsInit (pyNormalize "ai") = true ∧
    (expand_keyword synManagerInit "ai" 5).expanded_phrases
      = ["artificial intelligence", "machine learning platform", "ai platform"] ∧
    (expand_keyword synManagerInit "ai" 5).confidence = 95/100 ∧
    claim_tier 3 * 1 = 90/100 ∧
    (95/100 : ℚ) ≠ 90/100 := by
  have hmem : pyDictMem synonymsInit (pyNormalize "ai") = true := by decide
  have hget : pyDictGet synonymsInit (pyNormalize "ai")
      = some ["artificial intelligence", "machine learning platform",
              "ai platform"] := by decide
  refine ⟨hmem, by decide, ?_, by norm_num [claim_tier], by norm_num⟩
  show calculate_expansion_confidence synManagerInit (pyNormalize "ai")
      (((pyDictGet synonymsInit (pyNormalize "ai")).getD [pyNormalize "ai"]).take 5)
      = 95/100
  rw [hget]
  unfold calculate_expansion_confidence
  have hmem2 : (pyDictMem synManagerInit.synonyms (pyNormalize "ai") = false)
      = False := by
    simp [hmem]
    exact hmem
  rw [if_neg (by simp [hmem2] : ¬ pyDictMem synManagerInit.synonyms (pyNormalize "ai") = false)]
  simp

/-- C7 (amended): the claimed formula describes `SynonymManagerV2` only, up
to the final rounding: for every state and every keyword present in its
dictionary, `_calculate_expansion_confidence` returns the tier of the
returned-expansion count (`≥ 4 → 0.95`, `≥ 3 → 0.90`, `≥ 2 → 0.75`, else
`0.5`) multiplied by the relevance weight and rounded to three decimals; a
state loaded from a YAML file stores, for each keyword, the declared weight
of its last declaration, or 1.0 when no weight is declared (while
`expand_keyword` itself would default a *missing* weights entry to 0.5, the
loader always populates the entry). -/
theorem C7_weighted_confidence :
    (∀ (s : SynStateV2) (keyword : String) (expansions : List String) (w : ℚ),
      pyDictMem s.synonyms keyword = true →
      calculate_expansion_confidence_v2 s keyword expansions w
        = pyRound3 (claim_tier expansions.length * w)) ∧
    (∀ (cfg : YamlConfig) (kw : String) (n : ℕ),
      pyDictMem (loadedStateV2 cfg).synonyms (pyNormalize kw) = true →
      (expand_keyword_v2 (loadedStateV2 cfg) kw n).confidence
        = pyRound3
            (claim_tier (expand_keyword_v2 (loadedStateV2 cfg) kw n).expansion_count
              * ((pyDictGet (loadedStateV2 cfg).weights (pyNormalize kw)).getD (1/2)))) ∧
    (∀ (cfg : YamlConfig) (k : String),
      pyDictGet (loadedStateV2 cfg).weights k
        = ((yamlPairs cfg).reverse.find? (fun e => normalizeYamlKey e.1 == k)).map
            (fun e => e.2.weight.getD 1)) := by
  have hbase : ∀ (s : SynStateV2) (keyword : String) (expansions : List String) (w : ℚ),
      pyDictMem s.synonyms keyword = true →
      calculate_expansion_confidence_v2 s keyword expansions w
        = pyRound3 (claim_tier expansions.length * w) := by
    intro s keyword expansions w hmem
    unfold calculate_expansion_confidence_v2 claim_tier
    rw [if_pos hmem]
  refine ⟨hbase, ?_, ?_⟩
  · intro cfg kw n hmem
    exact hbase _ _ _ _ hmem
  · intro cfg k
    show pyDictGet ((yamlPairs cfg).map
        (fun e => (normalizeYamlKey e.1, e.2.weight.getD 1))) k = _
    unfold pyDictGet
    rw [← List.map_reverse, List.find?_map]
    rw [Option.map_map]
    rfl

/-- C7: witness.  The amended theorem applied to a state loaded from a
one-domain YAML file declaring `lan` with 4 expansions and weight 0.9:
the confidence is `round3(0.95 × 0.9) = 0.855`. -/
theorem C7_witness :
    pyDictMem (loadedStateV2 ⟨["networking"], [("networking",
        [("lan", ⟨["local area network", "layer 2 switch", "layer 3 switch",
          "vlan"], some (9/10), []⟩)])]⟩).synonyms (pyNormalize "lan") = true ∧
    (expand_keyword_v2 (loadedStateV2 ⟨["networking"], [("networking",
        [("lan", ⟨["local area network", "layer 2 switch", "layer 3 switch",
          "vlan"], some (9/10), []⟩)])]⟩) "lan" 5).confidence
      = pyRound3 (claim_tier 4 * (9/10)) ∧
    pyRound3 (claim_tier 4 * (9/10)) = 171/200 := by
  have hmem : pyDictMem (loadedStateV2 ⟨["networking"], [("networking",
      [("lan", ⟨["local area network", "layer 2 switch", "layer 3 switch",
        "vlan"], some (9/10), []⟩)])]⟩).synonyms (pyNormalize "lan") = true := by
    decide
  have h := C7_weighted_confidence.2.1 ⟨["networking"], [("networking",
      [("lan", ⟨["local area network", "layer 2 switch", "layer 3 switch",
        "vlan"], some (9/10), []⟩)])]⟩ "lan" 5 hmem
  refine ⟨hmem, ?_, ?_⟩
  · rw [h]
    have hcount : (expand_keyword_v2 (loadedStateV2 ⟨["networking"],
        [("networking", [("lan", ⟨["local area network", "layer 2 switch",
          "layer 3 switch", "vlan"], some (9/10), []⟩)])]⟩) "lan" 5).expansion_count
        = 4 := by decide
    have hw : (pyDictGet (loadedStateV2 ⟨["networking"], [("networking",
        [("lan", ⟨["local area network", "layer 2 switch", "layer 3 switch",
          "vlan"], some (9/10), []⟩)])]⟩).weights (pyNormalize "lan")).getD (1/2)
        = 9/10 := by
      have : pyDictGet (loadedStateV2 ⟨["networking"], [("networking",
          [("lan", ⟨["local area network", "layer 2 switch", "layer 3 switch",
            "vlan"], some (9/10), []⟩)])]⟩).weights (pyNormalize "lan")
          = some (9/10) := rfl
      rw [this]
      rfl
    rw [hcount, hw]
  · norm_num [pyRound3, pyRound, claim_tier]

/-- C8: counterexample.  A manager previously loaded with a one-keyword
dictionary, reloaded while the external source is missing (`none`), does NOT
keep serving the previous dictionary: its state is replaced by the built-in
4-keyword fallback dictionary, and the reload result reports `success = True`
(with before/after counts), not a failure. -/
theorem C8_counterexample :
    (reload_synonyms (load_from_yaml (some ⟨["networking"], [("networking",
        [("lan", ⟨["local area network"], none, []⟩)])]⟩)) none).1.success
      = true ∧
    (reload_synonyms (load_from_yaml (some ⟨["networking"], [("networking",
        [("lan", ⟨["local area network"], none, []⟩)])]⟩)) none).2
      = fallbackStateV2 ∧
    (load_from_yaml (some ⟨["networking"], [("networking",
        [("lan", ⟨["local area network"], none, []⟩)])]⟩)).synonyms
      = [("lan", ["local area network"])] ∧
    fallbackStateV2.synonyms ≠ [("lan", ["local area network"])] ∧
    (reload_synonyms (load_from_yaml (some ⟨["networking"], [("networking",
        [("lan", ⟨["local area network"], none, []⟩)])]⟩)) none).1.previous_keywords
      = 1 ∧
    (reload_synonyms (load_from_yaml (some ⟨["networking"], [("networking",
        [("lan", ⟨["local area network"], none, []⟩)])]⟩)) none).1.current_keywords
      = 4 := by
  refine ⟨rfl, rfl, by decide, by decide, by decide, by decide⟩

/-- C8 (amended): when a reload finds the external source missing or
malformed, `_load_from_yaml` catches the failure internally and replaces the
in-memory dictionary with the minimal built-in fallback (it does not keep the
previous dictionary); `reload_synonyms` never raises and returns
`success = True` together with the before/after keyword and domain counts
(previous counts from the old state, current counts from the fallback).
In general the post-reload state is exactly the freshly loaded state. -/
theorem C8_reload_fallback (s : SynStateV2) (src : Option YamlConfig) :
    (reload_synonyms s none).2 = fallbackStateV2 ∧
    (reload_synonyms s none).1.success = true ∧
    (reload_synonyms s none).1.previous_keywords = s.total_keywords ∧
    (reload_synonyms s none).1.current_keywords = fallbackStateV2.total_keywords ∧
    (reload_synonyms s none).1.previous_domains = s.domains.length ∧
    (reload_synonyms s none).1.current_domains = fallbackStateV2.domains.length ∧
    (reload_synonyms s src).2 = load_from_yaml src ∧
    (reload_synonyms s src).1.success = true :=
  ⟨rfl, rfl, rfl, rfl, rfl, rfl, rfl, rfl⟩

/-- C3: whenever the configuration requests the OpenSearch engine but the
library is missing, the enabled flag is false, no hosts are configured, the
client fails to construct, or the health check reports unhealthy, raises or
times out, the active engine after construction is the SQLite baseline and no
exception escapes — and, in that situation, construction raises exactly when
the SQLite baseline itself fails to construct. -/
theorem C3_fallback_determinism (requested : String) (env : OpenSearchEnv)
    (sqlite_ok : Bool)
    (hreq : pyLowerStr requested = "opensearch")
    (hfail : env.available = false ∨ env.enabled = false ∨
      env.hosts_configured = false ∨ env.constructs = false ∨
      env.health = HealthOutcome.unhealthy ∨ env.health = HealthOutcome.raised ∨
      env.health = HealthOutcome.timedOut) :
    (sqlite_ok = true →
      initialize_engine requested env sqlite_ok = Except.ok EngineKind.sqlite) ∧
    ((∃ e, initialize_engine requested env sqlite_ok = Except.error e) ↔
      sqlite_ok = false) := by
  have hkey : try_initialize_opensearch env sqlite_ok
      = initialize_sqlite sqlite_ok := by
    unfold try_initialize_opensearch
    by_cases h1 : env.available = false
    · rw [if_pos h1]
    · rw [if_neg h1]
      by_cases h2 : env.enabled = false
      · rw [if_pos h2]
      · rw [if_neg h2]
        by_cases h3 : env.hosts_configured = false
        · rw [if_pos h3]
        · rw [if_neg h3]
          by_cases h4 : env.constructs = false
          · rw [if_pos h4]
          · rw [if_neg h4]
            rcases hfail with h | h | h | h | h | h | h
            · exact absurd h h1
            · exact absurd h h2
            · exact absurd h h3
            · exact absurd h h4
            · rw [h]
            · rw [h]
            · rw [h]
  have hmain : initialize_engine requested env sqlite_ok
      = match initialize_sqlite sqlite_ok with
        | Except.ok e => Except.ok e
        | Except.error _ => initialize_sqlite sqlite_ok := by
    simp only [initialize_engine]
    rw [hreq, if_pos rfl, hkey]
  cases sqlite_ok with
  | true =>
    have hval : initialize_engine requested env true
        = Except.ok EngineKind.sqlite := by
      rw [hmain]
      rfl
    refine ⟨fun _ => hval, ?_⟩
    constructor
    · rintro ⟨e, he⟩
      rw [hval] at he
      cases he
    · intro h
      cases h
  | false =>
    have hval : initialize_engine requested env false
        = Except.error "Cannot initialize search engine" := by
      rw [hmain]
      rfl
    refine ⟨?_, ?_⟩
    · intro h
      cases h
    · constructor
      · intro _
        rfl
      · intro _
        exact ⟨"Cannot initialize search engine", hval⟩

/-- C3: witness.  Scenario C of the specification: OpenSearch requested with
`enabled = False` (library installed, hosts set, cluster healthy) and a
working SQLite baseline — the active engine is SQLite. -/
theorem C3_witness :
    initialize_engine "OpenSearch"
      ⟨true, false, true, true, HealthOutcome.healthy⟩ true
      = Except.ok EngineKind.sqlite :=
  (C3_fallback_determinism "OpenSearch"
    ⟨true, false, true, true, HealthOutcome.healthy⟩ true
    (by decide) (Or.inr (Or.inl rfl))).1 rfl

end TenderIntel
